import Mathlib

/-
Verification of the gocells payload / payload-waiter substrate and the
pair and counter behaviors (Tideland Go Cells).

Shallow embedding notes:
* Go dynamically typed values (interface values) are embedded as the
  closed inductive `Value`; the constructor records the exact runtime
  type, so a failed Go type assertion corresponds to a constructor
  mismatch.  Go `nil` interface values are `Value.nilv`.
* float64 values are represented by their 64-bit pattern (a `Nat`);
  the zero value 0.0 is pattern 0.  `time.Time` instants and
  `time.Duration` are nanosecond counts (`Int`); `time.Time.Equal` is
  integer equality.  `PayloadWaiter` references stored inside payloads
  are identifiers (`Nat`).
* Go maps (`PayloadValues`, `map[string]interface{}`) are embedded as
  association lists with unique-key discipline: `setv` replaces the
  entry in place, `getv` looks the key up.  Copying a map yields an
  equal map, so the copy loops of `NewPayload` / `Apply` are folds of
  `setv` over the source entries.
* Channels/goroutines: the waiter's capacity-1 channel is the
  `payloadc : Option payload` buffer, its `sync.Once` is the `once`
  flag.  The `select` inside `Wait` is nondeterministic when several
  cases are ready; `waitOutcomes` enumerates the possible outcomes of
  one iteration (the empty list means the call blocks).
-/

--------------------
-- DYNAMIC VALUES
--------------------

/-- A Go interface value with its exact runtime type. -/
inductive Value where
  | nilv : Value
  | bool : Bool → Value
  | int : Int → Value
  | float : Nat → Value
  | str : String → Value
  | time : Int → Value
  | duration : Int → Value
  | waiter : Nat → Value
  | strList : List String → Value
  | other : Nat → Value
deriving DecidableEq, Repr

--------------------
-- MAP HELPERS
--------------------

/-- Lookup in an association list (Go map read `m[key]`). -/
def getv {α : Type} : List (String × α) → String → Option α
  | [], _ => none
  | e :: m, k => if e.1 = k then some e.2 else getv m k

/-- Go map write `m[key] = value`: replace the entry if the key is
present, append it otherwise. -/
def setv {α : Type} : List (String × α) → String → α → List (String × α)
  | [], k, v => [(k, v)]
  | e :: m, k, v => if e.1 = k then (k, v) :: m else e :: setv m k v

/-- A `for key, value := range es { m[key] = value }` loop over the
entries `es`, mutating the map `m`. -/
def overlay {α : Type} (m es : List (String × α)) : List (String × α) :=
  es.foldl (fun acc e => setv acc e.1 e.2) m

/-- First-defined choice on options. -/
def orv {α : Type} : Option α → Option α → Option α
  | some a, _ => some a
  | none, b => b

--------------------
-- PAYLOAD
--------------------

/-- The `payload` struct: a `PayloadValues` map. -/
structure payload where
  values : List (String × Value)
deriving DecidableEq, Repr

/-- The reserved key for single values (`cells.DefaultPayload`, a plain
package constant defined outside the analysed files; only its identity
matters). -/
def DefaultPayload : String := "default"

/-- The dynamic argument of `NewPayload` / `Apply`: the type switch in
the source distinguishes an existing `Payload`, a `PayloadValues`, a
`map[string]interface{}`, and any other single value. -/
inductive GoValue where
  | payload : payload → GoValue
  | payloadValues : List (String × Value) → GoValue
  | stringMap : List (String × Value) → GoValue
  | value : Value → GoValue
deriving DecidableEq, Repr

/-- `NewPayload`: a `Payload` argument is returned directly; map
arguments are copied into a fresh map; any other value is stored under
`DefaultPayload`. -/
def NewPayload : GoValue → payload
  | GoValue.payload p => p
  | GoValue.payloadValues vs => ⟨overlay [] vs⟩
  | GoValue.stringMap vs => ⟨overlay [] vs⟩
  | GoValue.value v => ⟨setv [] DefaultPayload v⟩

/-- `payload.Len`. -/
def payload.Len (p : payload) : Nat :=
  p.values.length

/-- `payload.Get`: the comma-ok map read (absent keys give the `nil`
interface value and `false`). -/
def payload.Get (p : payload) (key : String) : Option Value × Bool :=
  match getv p.values key with
  | some v => (some v, true)
  | none => (none, false)

/-- `payload.GetBool`: `Get` then a `bool` type assertion. -/
def payload.GetBool (p : payload) (key : String) : Bool × Bool :=
  match p.Get key with
  | (raw, true) =>
    match raw with
    | some (Value.bool b) => (b, true)
    | _ => (false, false)
  | (_, false) => (false, false)

/-- `payload.GetInt`: `Get` then an `int` type assertion. -/
def payload.GetInt (p : payload) (key : String) : Int × Bool :=
  match p.Get key with
  | (raw, true) =>
    match raw with
    | some (Value.int i) => (i, true)
    | _ => (0, false)
  | (_, false) => (0, false)

/-- `payload.GetFloat64`: `Get` then a `float64` type assertion; the
result is the bit pattern, `0.0` being pattern `0`. -/
def payload.GetFloat64 (p : payload) (key : String) : Nat × Bool :=
  match p.Get key with
  | (raw, true) =>
    match raw with
    | some (Value.float f) => (f, true)
    | _ => (0, false)
  | (_, false) => (0, false)

/-- `payload.GetString`: `Get` then a `string` type assertion. -/
def payload.GetString (p : payload) (key : String) : String × Bool :=
  match p.Get key with
  | (raw, true) =>
    match raw with
    | some (Value.str s) => (s, true)
    | _ => ("", false)
  | (_, false) => ("", false)

/-- `payload.GetTime`: `Get` then a `time.Time` type assertion; the
zero `time.Time` is instant `0`. -/
def payload.GetTime (p : payload) (key : String) : Int × Bool :=
  match p.Get key with
  | (raw, true) =>
    match raw with
    | some (Value.time t) => (t, true)
    | _ => (0, false)
  | (_, false) => (0, false)

/-- `payload.GetDuration`: `Get` then a `time.Duration` type
assertion. -/
def payload.GetDuration (p : payload) (key : String) : Int × Bool :=
  match p.Get key with
  | (raw, true) =>
    match raw with
    | some (Value.duration d) => (d, true)
    | _ => (0, false)
  | (_, false) => (0, false)

/-- `payload.GetWaiter`: `Get` then a `PayloadWaiter` type assertion;
a failed assertion yields the `nil` waiter (`none`). -/
def payload.GetWaiter (p : payload) (key : String) : Option Nat × Bool :=
  match p.Get key with
  | (raw, true) =>
    match raw with
    | some (Value.waiter w) => (some w, true)
    | _ => (none, false)
  | (_, false) => (none, false)

/-- `payload.Keys` (the iteration order of a Go map is unspecified; the
entry order of the list stands in for it). -/
def payload.Keys (p : payload) : List String :=
  p.values.map Prod.fst

/-- The entries the `Apply` type switch writes over the copied
receiver: a `Payload` argument is iterated with `Do` (its entry list),
map arguments contribute their entries, any other value one entry
under `DefaultPayload`. -/
def applyEntries : GoValue → List (String × Value)
  | GoValue.payload q => q.values
  | GoValue.payloadValues vs => vs
  | GoValue.stringMap vs => vs
  | GoValue.value v => [(DefaultPayload, v)]

/-- `payload.Apply`: copy the receiver's entries into a fresh map, then
write the argument's entries over them.  The receiver is a pure value
here, so it is never mutated; copying a map gives an equal map, hence
the fresh map is represented by the receiver's own entry list. -/
def payload.Apply (p : payload) (values : GoValue) : payload :=
  ⟨overlay p.values (applyEntries values)⟩

--------------------
-- PAYLOAD WAITER
--------------------

/-- The `payloadWaiter` struct: `payloadc` is the buffer of the
capacity-1 channel, `once` the fired flag of the `sync.Once`. -/
structure payloadWaiter where
  payloadc : Option payload
  once : Bool
deriving DecidableEq, Repr

/-- `NewPayloadWaiter`: empty buffer, once not fired. -/
def NewPayloadWaiter : payloadWaiter :=
  ⟨none, false⟩

/-- `payloadWaiter.Set`: the `sync.Once` guard runs the channel send
only on the first call; the guarded send can never block because it is
the only send on the capacity-1 channel. -/
def payloadWaiter.Set (w : payloadWaiter) (p : payload) : payloadWaiter :=
  if w.once then w else { payloadc := some p, once := true }

/-- A cancellation context, reduced to whether it is done at the
moment of the call. -/
structure Ctx where
  done : Bool
deriving DecidableEq, Repr

/-- `context.Background()`: never done. -/
def background : Ctx :=
  ⟨false⟩

/-- The result of a `Wait` call: the received payload, or the
cancellation error `ctx.Err()`. -/
inductive WaitResult where
  | payload : payload → WaitResult
  | err : WaitResult
deriving DecidableEq, Repr

/-- `payloadWaiter.Wait`: a `nil` context is replaced by
`context.Background()`; then one `select` over receiving from
`payloadc` and the context's done signal.  Go's `select` chooses
uniformly among the ready cases, so the possible outcomes are listed:
receiving consumes the buffered payload; a done context yields the
error and leaves the buffer alone.  An empty outcome list means the
call blocks. -/
def payloadWaiter.waitOutcomes (w : payloadWaiter) (ctx : Option Ctx) :
    List (WaitResult × payloadWaiter) :=
  let c := ctx.getD background
  (match w.payloadc with
   | some pl => [(WaitResult.payload pl, { w with payloadc := none })]
   | none => []) ++
  (if c.done then [(WaitResult.err, w)] else [])

--------------------
-- PAIR BEHAVIOR
--------------------

/-- Topic of an emitted pair event (`EventPairTopic`, a plain package
constant defined outside the analysed files; only its identity
matters, as for the remaining topic and payload-key constants). -/
def EventPairTopic : String := "pair"

/-- Topic of the timeout reminder / timeout event. -/
def EventPairTimeoutTopic : String := "pair-timeout"

/-- Payload key of the first hit's timestamp. -/
def EventPairFirstTimePayload : String := "pair-first-time"

/-- Payload key of the first hit's criterion data. -/
def EventPairFirstDataPayload : String := "pair-first-data"

/-- Payload key of the second hit's timestamp. -/
def EventPairSecondTimePayload : String := "pair-second-time"

/-- Payload key of the second hit's criterion data. -/
def EventPairSecondDataPayload : String := "pair-second-data"

/-- Payload key of the timeout timestamp. -/
def EventPairTimeoutPayload : String := "pair-timeout-time"

/-- An event as a behavior sees it: `Topic()` and `Payload()`. -/
structure Event where
  Topic : String
  Payload : payload
deriving DecidableEq, Repr

/-- `PairCriterion`: `(event, priorHitData) -> (newHitData, matched)`. -/
def PairCriterion : Type :=
  Event → Value → Value × Bool

/-- An `EmitNew` call made by the behavior: topic and the
`PayloadValues` passed along. -/
structure Emission where
  Topic : String
  Values : List (String × Value)
deriving DecidableEq, Repr

/-- The mutable fields of the `pairBehavior` struct.  The `cell` handle
is represented by returning the list of emissions, the `matches`
criterion is a parameter of `ProcessEvent` (keeping the state
decidably comparable), and the `*time.Timer` by whether a timer is
outstanding (`timeout`); the reminder the timer would deliver arrives
as an ordinary `EventPairTimeoutTopic` event carrying the hit
timestamp under `EventPairFirstTimePayload`. -/
structure pairBehavior where
  duration : Int
  hit : Option Int
  hitData : Value
  timeout : Bool
deriving DecidableEq, Repr

/-- `NewPairBehavior` (`hit`, `hitData`, `timeout` start as Go `nil`). -/
def NewPairBehavior (duration : Int) : pairBehavior :=
  ⟨duration, none, Value.nilv, false⟩

/-- `pairBehavior.emitPair`: emit the pair event (first timestamp,
first data, second timestamp, second data) and set `hit` to `nil`.
`hitData` is left as it is, exactly as in the source.  The stored hit
is dereferenced (`*b.hit`), so callers guarantee `b.hit` is set. -/
def pairBehavior.emitPair (b : pairBehavior) (timestamp : Int) (data : Value) :
    pairBehavior × Emission :=
  ({ b with hit := none },
   ⟨EventPairTopic,
    [(EventPairFirstTimePayload, Value.time (b.hit.getD 0)),
     (EventPairFirstDataPayload, b.hitData),
     (EventPairSecondTimePayload, Value.time timestamp),
     (EventPairSecondDataPayload, data)]⟩)

/-- `pairBehavior.emitTimeout`: emit the timeout event (first
timestamp, first data, timeout timestamp) and set `hit` to `nil`;
`hitData` is left as it is.  `now` stands for the `time.Now()` call
inside the function. -/
def pairBehavior.emitTimeout (b : pairBehavior) (now : Int) :
    pairBehavior × Emission :=
  ({ b with hit := none },
   ⟨EventPairTimeoutTopic,
    [(EventPairFirstTimePayload, Value.time (b.hit.getD 0)),
     (EventPairFirstDataPayload, b.hitData),
     (EventPairTimeoutPayload, Value.time now)]⟩)

/-- `pairBehavior.ProcessEvent`; `now` stands for the `time.Now()`
calls of this invocation.  On the reminder topic with a pending hit and
an outstanding timer, a matching embedded timestamp triggers the
timeout emission and drops the timer; otherwise the reminder is
discarded.  On any other topic the criterion decides: a first hit
stores time and data and starts the timer (`time.AfterFunc`, which will
deliver the reminder event later); a second hit stops the timer and
emits either the timeout (late) or the pair (in time). -/
def pairBehavior.ProcessEvent (criterion : PairCriterion) (now : Int)
    (b : pairBehavior) (event : Event) : pairBehavior × List Emission :=
  if event.Topic = EventPairTimeoutTopic then
    match b.hit, b.timeout with
    | some h, true =>
      match event.Payload.GetTime EventPairFirstTimePayload with
      | (hitT, true) =>
        if hitT = h then
          let r := b.emitTimeout now
          ({ r.1 with timeout := false }, [r.2])
        else (b, [])
      | (_, false) => (b, [])
    | _, _ => (b, [])
  else
    match criterion event b.hitData with
    | (hitData, true) =>
      match b.hit with
      | none =>
        ({ b with hit := some now, hitData := hitData, timeout := true }, [])
      | some h =>
        let b1 := { b with timeout := false }
        if now - h > b.duration then
          let r := b1.emitTimeout now
          (r.1, [r.2])
        else
          let r := b1.emitPair now hitData
          (r.1, [r.2])
    | (_, false) => (b, [])

--------------------
-- COUNTER BEHAVIOR
--------------------

/-- Reserved reset topic (`cells.TopicReset`, a package constant
defined outside the analysed files). -/
def TopicReset : String := "reset"

/-- Reserved counter snapshot-request topic. -/
def TopicCounters : String := "counters"

/-- Modelled from the spec: the counter behavior's source file
(`behaviors/counter.go`) is not among the analysed files, only its
unit test is.  Per the spec, each derived key's 64-bit counter is
incremented by one, entries being created lazily on first
occurrence. -/
def counterInc (counters : List (String × Int)) (key : String) :
    List (String × Int) :=
  setv counters key ((getv counters key).getD 0 + 1)

/-- Modelled from the spec: processing one event of the counter
behavior.  A reset topic clears all counters with no reply; a snapshot
request answers the full mapping through the embedded waiter (the
second component models the deposited snapshot) and leaves the
counters alone; any other event increments the counter of every key
the derivation function returns, duplicates counting multiple
times. -/
def counterProcessEvent (cf : Event → List String)
    (counters : List (String × Int)) (event : Event) :
    List (String × Int) × Option (List (String × Int)) :=
  if event.Topic = TopicReset then ([], none)
  else if event.Topic = TopicCounters then (counters, some counters)
  else ((cf event).foldl counterInc counters, none)

--------------------
-- MAP LEMMAS
--------------------

/-- Writing a key and then reading gives the written value; other keys
are unaffected. -/
theorem getv_setv {α : Type} (m : List (String × α)) (k k' : String) (v : α) :
    getv (setv m k v) k' = if k' = k then some v else getv m k' := by
  induction m with
  | nil =>
    by_cases h : k' = k
    · subst h; simp [setv, getv]
    · have h2 : ¬k = k' := fun hh => h hh.symm
      simp [setv, getv, h, h2]
  | cons e m ih =>
    by_cases he : e.1 = k
    · by_cases h : k' = k
      · subst h
        simp [setv, getv, he]
      · have h2 : ¬k = k' := fun hh => h hh.symm
        have he2 : ¬e.1 = k' := fun hh => h2 (he.symm.trans hh)
        simp [setv, getv, he, h, h2, he2]
    · by_cases h : k' = k
      · subst h
        simp [setv, getv, he, ih]
      · by_cases he2 : e.1 = k'
        · simp [setv, getv, he, he2, h]
        · simp [setv, getv, he, he2, h, ih]

/-- A key outside a map's key set reads as absent. -/
theorem getv_eq_none {α : Type} (m : List (String × α)) (k : String)
    (h : k ∉ m.map Prod.fst) : getv m k = none := by
  induction m with
  | nil => rfl
  | cons e m ih =>
    simp only [List.map_cons, List.mem_cons] at h
    push_neg at h
    have he : ¬e.1 = k := fun hc => h.1 hc.symm
    simp [getv, he, ih h.2]

/-- Looking up a key after a write loop over entries with unique keys:
the entries answer where defined, the base map elsewhere. -/
theorem getv_overlay {α : Type} (es m : List (String × α)) (k : String)
    (hnd : (es.map Prod.fst).Nodup) :
    getv (overlay m es) k = orv (getv es k) (getv m k) := by
  induction es generalizing m with
  | nil => simp [overlay, getv, orv]
  | cons e rest ih =>
    simp only [List.map_cons, List.nodup_cons] at hnd
    have step : overlay m (e :: rest) = overlay (setv m e.1 e.2) rest := by
      simp [overlay]
    rw [step, ih (setv m e.1 e.2) hnd.2]
    by_cases hk : e.1 = k
    · subst hk
      have hnone : getv rest e.1 = none := getv_eq_none rest e.1 hnd.1
      simp [getv, getv_setv, hnone, orv]
    · have hk2 : ¬k = e.1 := fun hc => hk hc.symm
      have hset : getv (setv m e.1 e.2) k = getv m k := by
        rw [getv_setv]
        simp [hk2]
      rw [hset]
      simp [getv, hk]

--------------------
-- TYPE TESTS
--------------------

/-- Runtime-type test: the value is exactly a Go `bool`. -/
def Value.isBool : Value → Bool
  | Value.bool _ => true
  | _ => false

/-- Runtime-type test: the value is exactly a Go `int`. -/
def Value.isInt : Value → Bool
  | Value.int _ => true
  | _ => false

/-- Runtime-type test: the value is exactly a Go `float64`. -/
def Value.isFloat : Value → Bool
  | Value.float _ => true
  | _ => false

/-- Runtime-type test: the value is exactly a Go `string`. -/
def Value.isStr : Value → Bool
  | Value.str _ => true
  | _ => false

/-- Runtime-type test: the value is exactly a `time.Time`. -/
def Value.isTime : Value → Bool
  | Value.time _ => true
  | _ => false

/-- Runtime-type test: the value is exactly a `time.Duration`. -/
def Value.isDuration : Value → Bool
  | Value.duration _ => true
  | _ => false

/-- Runtime-type test: the value is exactly a `PayloadWaiter`. -/
def Value.isWaiter : Value → Bool
  | Value.waiter _ => true
  | _ => false

--------------------
-- CLAIMS
--------------------

/-- Claim C5: only the first `Set` call on a payload waiter deposits a
payload; a second `Set`, with any payload, leaves the waiter in exactly
the state the first `Set` alone produced, and the deposited payload is
the first one. -/
theorem C5_set_first_wins :
    ∀ (w : payloadWaiter) (p q : payload),
      (w.Set p).Set q = w.Set p
      ∧ (NewPayloadWaiter.Set p).payloadc = some p := by
  intro w p q
  constructor
  · cases w with
    | mk buf fired => cases fired <;> simp [payloadWaiter.Set]
  · rfl

/-- Claim C10: `NewPayload` returns an argument that is already a
`Payload` unchanged, so `NewPayload` is idempotent on every input. -/
theorem C10_newpayload_idem :
    ∀ (p : payload) (v : GoValue),
      NewPayload (GoValue.payload p) = p
      ∧ NewPayload (GoValue.payload (NewPayload v)) = NewPayload v := by
  intro p v
  exact ⟨rfl, rfl⟩

/-- Claim C7: every typed accessor answers the zero value of its type
and a `false` found flag both when the key is absent and when the
stored value's runtime type is not exactly the requested one; in
particular a stored string read through `GetInt` gives `(0, false)`,
the same answer as an absent key. -/
theorem C7_typed_accessor_strictness :
    ∀ (p : payload) (k : String),
      (getv p.values k = none →
        p.GetBool k = (false, false) ∧ p.GetInt k = (0, false)
          ∧ p.GetFloat64 k = (0, false) ∧ p.GetString k = ("", false)
          ∧ p.GetTime k = (0, false) ∧ p.GetDuration k = (0, false)
          ∧ p.GetWaiter k = (none, false))
      ∧ (∀ v, getv p.values k = some v →
          (v.isBool = false → p.GetBool k = (false, false))
          ∧ (v.isInt = false → p.GetInt k = (0, false))
          ∧ (v.isFloat = false → p.GetFloat64 k = (0, false))
          ∧ (v.isStr = false → p.GetString k = ("", false))
          ∧ (v.isTime = false → p.GetTime k = (0, false))
          ∧ (v.isDuration = false → p.GetDuration k = (0, false))
          ∧ (v.isWaiter = false → p.GetWaiter k = (none, false)))
      ∧ (∀ s, getv p.values k = some (Value.str s) →
          p.GetInt k = (0, false)) := by
  intro p k
  refine ⟨?_, ?_, ?_⟩
  · intro h
    simp [payload.GetBool, payload.GetInt, payload.GetFloat64,
      payload.GetString, payload.GetTime, payload.GetDuration,
      payload.GetWaiter, payload.Get, h]
  · intro v h
    refine ⟨?_, ?_, ?_, ?_, ?_, ?_, ?_⟩ <;> intro hv <;> cases v <;>
      simp_all [payload.GetBool, payload.GetInt, payload.GetFloat64,
        payload.GetString, payload.GetTime, payload.GetDuration,
        payload.GetWaiter, payload.Get, Value.isBool, Value.isInt,
        Value.isFloat, Value.isStr, Value.isTime, Value.isDuration,
        Value.isWaiter]
  · intro s h
    simp [payload.GetInt, payload.Get, h]

/-- Witness for C7 at a concrete payload: the key `"a"` is absent and
the key `"k"` holds a string, and `GetInt` answers `(0, false)` in both
cases. -/
theorem C7_witness :
    payload.GetInt ⟨[("k", Value.str "s")]⟩ "a" = (0, false)
    ∧ payload.GetInt ⟨[("k", Value.str "s")]⟩ "k" = (0, false) :=
  ⟨((C7_typed_accessor_strictness ⟨[("k", Value.str "s")]⟩ "a").1
      (by decide)).2.1,
   (C7_typed_accessor_strictness ⟨[("k", Value.str "s")]⟩ "k").2.2 "s"
      (by decide)⟩

/-- Claim C6: `Apply` never mutates the receiver (it is a pure function
of it here) and the produced payload reads as the argument's entries
overlaid over the receiver's: on every key the argument answers first,
the receiver otherwise, so the key set is the union with the argument
winning conflicts; a non-mapping argument contributes the single entry
under `DefaultPayload`. -/
theorem C6_apply_union :
    ∀ (p : payload) (v : GoValue) (k : String) (u : Value),
      (((applyEntries v).map Prod.fst).Nodup →
        getv (p.Apply v).values k
            = orv (getv (applyEntries v) k) (getv p.values k)
        ∧ ((getv (p.Apply v).values k).isSome
            ↔ ((getv (applyEntries v) k).isSome
                ∨ (getv p.values k).isSome)))
      ∧ applyEntries (GoValue.value u) = [(DefaultPayload, u)] := by
  intro p v k u
  constructor
  · intro hnd
    have h := getv_overlay (applyEntries v) p.values k hnd
    refine ⟨h, ?_⟩
    rw [show (p.Apply v).values = overlay p.values (applyEntries v) from rfl, h]
    cases getv (applyEntries v) k <;> simp [orv]
  · rfl

/-- Witness for C6 at a concrete overlay: `{a:1}` applied with
`{a:2, b:3}` answers `2` at `a` (argument wins) and keeps key `b`. -/
theorem C6_witness :
    getv (payload.Apply ⟨[("a", Value.int 1)]⟩
        (GoValue.payloadValues [("a", Value.int 2), ("b", Value.int 3)])).values "a"
      = orv (getv (applyEntries
            (GoValue.payloadValues [("a", Value.int 2), ("b", Value.int 3)])) "a")
          (getv [("a", Value.int 1)] "a")
    ∧ ((getv (payload.Apply ⟨[("a", Value.int 1)]⟩
        (GoValue.payloadValues [("a", Value.int 2), ("b", Value.int 3)])).values "b").isSome
          ↔ ((getv (applyEntries
                (GoValue.payloadValues [("a", Value.int 2), ("b", Value.int 3)])) "b").isSome
              ∨ (getv [("a", Value.int 1)] "b").isSome)) :=
  ⟨((C6_apply_union ⟨[("a", Value.int 1)]⟩
      (GoValue.payloadValues [("a", Value.int 2), ("b", Value.int 3)]) "a"
      Value.nilv).1 (by decide)).1,
   ((C6_apply_union ⟨[("a", Value.int 1)]⟩
      (GoValue.payloadValues [("a", Value.int 2), ("b", Value.int 3)]) "b"
      Value.nilv).1 (by decide)).2⟩

/-- The key-derivation closure of the counter unit test: the event's
default-payload value as a string list (empty if it is anything
else). -/
def counterTestCF : Event → List String := fun e =>
  match getv e.Payload.values DefaultPayload with
  | some (Value.strList l) => l
  | _ => []

/-- Claim C8: feeding the counter the key sets `{a,b}`, `{a,c,d}`,
`{a,d}` and then requesting a snapshot answers exactly
`{a:3, b:1, c:1, d:2}`; after a reset the snapshot answers the empty
mapping. -/
theorem C8_counter_scenario :
    (counterProcessEvent counterTestCF
        (counterProcessEvent counterTestCF
          (counterProcessEvent counterTestCF
            (counterProcessEvent counterTestCF []
              ⟨"count", ⟨[(DefaultPayload, Value.strList ["a", "b"])]⟩⟩).1
            ⟨"count", ⟨[(DefaultPayload, Value.strList ["a", "c", "d"])]⟩⟩).1
          ⟨"count", ⟨[(DefaultPayload, Value.strList ["a", "d"])]⟩⟩).1
        ⟨TopicCounters, ⟨[]⟩⟩).2
      = some [("a", 3), ("b", 1), ("c", 1), ("d", 2)]
    ∧ (counterProcessEvent counterTestCF
        (counterProcessEvent counterTestCF
          (counterProcessEvent counterTestCF
            (counterProcessEvent counterTestCF
              (counterProcessEvent counterTestCF []
                ⟨"count", ⟨[(DefaultPayload, Value.strList ["a", "b"])]⟩⟩).1
              ⟨"count", ⟨[(DefaultPayload, Value.strList ["a", "c", "d"])]⟩⟩).1
            ⟨"count", ⟨[(DefaultPayload, Value.strList ["a", "d"])]⟩⟩).1
          ⟨TopicReset, ⟨[]⟩⟩).1
        ⟨TopicCounters, ⟨[]⟩⟩).2
      = some [] := by decide

/-- Claim C1 counterexample: `Wait` consumes the deposited payload.
After `Set`, the only `Wait` outcome returns the payload and leaves the
slot empty; on the emptied waiter a later `Wait` has no outcome at all
under a live context (it blocks) and only the cancellation error under
a cancelled one — it never observes the deposited payload again. -/
theorem C1_counterexample :
    NewPayloadWaiter.Set ⟨[("x", Value.int 1)]⟩
        = ⟨some ⟨[("x", Value.int 1)]⟩, true⟩
    ∧ payloadWaiter.waitOutcomes ⟨some ⟨[("x", Value.int 1)]⟩, true⟩ none
        = [(WaitResult.payload ⟨[("x", Value.int 1)]⟩, ⟨none, true⟩)]
    ∧ payloadWaiter.waitOutcomes ⟨none, true⟩ none = []
    ∧ payloadWaiter.waitOutcomes ⟨none, true⟩ (some ⟨true⟩)
        = [(WaitResult.err, ⟨none, true⟩)] := by decide

/-- Claim C1 as amended: the channel receive in `Wait` consumes the
deposited payload, so exactly one `Wait` observes it.  Under a context
that is not yet done, the unique outcome of a `Wait` after `Set` on a
fresh waiter returns that payload and empties the slot; every `Wait`
outcome on a waiter whose slot is empty is the cancellation error. -/
theorem C1_wait_consumes :
    ∀ (p : payload) (ctx1 ctx2 : Option Ctx) (w w2 : payloadWaiter)
        (r : WaitResult),
      ((ctx1.getD background).done = false →
        (NewPayloadWaiter.Set p).waitOutcomes ctx1
          = [(WaitResult.payload p, ⟨none, true⟩)])
      ∧ (w.payloadc = none → (r, w2) ∈ w.waitOutcomes ctx2 →
          r = WaitResult.err) := by
  intro p ctx1 ctx2 w w2 r
  constructor
  · intro hdone
    simp [NewPayloadWaiter, payloadWaiter.Set, payloadWaiter.waitOutcomes,
      hdone]
  · intro hempty hmem
    cases hdone : (ctx2.getD background).done with
    | false => simp [payloadWaiter.waitOutcomes, hempty, hdone] at hmem
    | true =>
      simp [payloadWaiter.waitOutcomes, hempty, hdone] at hmem
      exact hmem.1

/-- Witness for C1: the unique outcome after a deposit, and the error
outcome of a later call on the emptied waiter. -/
theorem C1_witness :
    (NewPayloadWaiter.Set ⟨[("x", Value.int 1)]⟩).waitOutcomes none
        = [(WaitResult.payload ⟨[("x", Value.int 1)]⟩, ⟨none, true⟩)]
    ∧ WaitResult.err = WaitResult.err :=
  ⟨(C1_wait_consumes ⟨[("x", Value.int 1)]⟩ none (some ⟨true⟩)
      ⟨none, true⟩ ⟨none, true⟩ WaitResult.err).1 (by decide),
   (C1_wait_consumes ⟨[("x", Value.int 1)]⟩ none (some ⟨true⟩)
      ⟨none, true⟩ ⟨none, true⟩ WaitResult.err).2 rfl (by decide)⟩

/-- Claim C2 counterexample: with the context already cancelled and a
payload already deposited, the `select` in `Wait` may take the receive
case and return the stale payload — returning the cancellation error is
not guaranteed.  The waiter state is the one `Set` produces. -/
theorem C2_counterexample :
    (⟨true⟩ : Ctx).done = true
    ∧ NewPayloadWaiter.Set ⟨[("x", Value.int 1)]⟩
        = ⟨some ⟨[("x", Value.int 1)]⟩, true⟩
    ∧ (WaitResult.payload ⟨[("x", Value.int 1)]⟩,
        (⟨none, true⟩ : payloadWaiter))
        ∈ payloadWaiter.waitOutcomes ⟨some ⟨[("x", Value.int 1)]⟩, true⟩
            (some ⟨true⟩)
    ∧ WaitResult.payload ⟨[("x", Value.int 1)]⟩ ≠ WaitResult.err := by
  decide

/-- Claim C2 as amended: when the context is already done at the call,
`Wait` returns the cancellation error if no payload has been deposited;
if one has been deposited, the select nondeterministically returns
either the deposited payload (consuming it) or the cancellation error,
so cancellation is not guaranteed to win over a stale value. -/
theorem C2_cancelled_select :
    ∀ (w w2 : payloadWaiter) (ctx : Option Ctx) (r : WaitResult)
        (p : payload),
      (ctx.getD background).done = true →
      ((w.payloadc = none →
          ((r, w2) ∈ w.waitOutcomes ctx ↔ (r = WaitResult.err ∧ w2 = w)))
       ∧ (w.payloadc = some p →
          ((r, w2) ∈ w.waitOutcomes ctx ↔
            ((r = WaitResult.payload p ∧ w2 = { w with payloadc := none })
              ∨ (r = WaitResult.err ∧ w2 = w))))) := by
  intro w w2 ctx r p hdone
  constructor
  · intro hbuf
    simp [payloadWaiter.waitOutcomes, hbuf, hdone]
  · intro hbuf
    simp [payloadWaiter.waitOutcomes, hbuf, hdone]

/-- Witness for C2: on a deposited-and-cancelled waiter both outcomes
are possible; in particular the stale-payload outcome can occur. -/
theorem C2_witness :
    (WaitResult.payload ⟨[("x", Value.int 1)]⟩,
        (⟨none, true⟩ : payloadWaiter))
      ∈ payloadWaiter.waitOutcomes ⟨some ⟨[("x", Value.int 1)]⟩, true⟩
          (some ⟨true⟩) :=
  (((C2_cancelled_select ⟨some ⟨[("x", Value.int 1)]⟩, true⟩ ⟨none, true⟩
      (some ⟨true⟩) (WaitResult.payload ⟨[("x", Value.int 1)]⟩)
      ⟨[("x", Value.int 1)]⟩ (by decide)).2 rfl).mpr
    (Or.inl ⟨rfl, rfl⟩))

/-- Claim C3 counterexample: a concrete pair run.  From idle, a first
matching event stores `hit = 0` and `hitData = "d1"`; a second matching
event within the window resolves the pair, after which `hit` is `nil`
(idle) but `hitData` still holds `"d1"` — the resolution did not clear
it — and a further matching event from this idle state hands the stale
`"d1"`, not `nil`, to the criterion (the echoing criterion stores its
argument, and the stored data is `"d1"`). -/
theorem C3_counterexample :
    (pairBehavior.ProcessEvent (fun _ _ => (Value.str "d1", true)) 0
        (NewPairBehavior 10) ⟨"t", ⟨[]⟩⟩).1
      = ⟨10, some 0, Value.str "d1", true⟩
    ∧ (pairBehavior.ProcessEvent (fun _ _ => (Value.str "d1", true)) 5
        ⟨10, some 0, Value.str "d1", true⟩ ⟨"t", ⟨[]⟩⟩).1
      = ⟨10, none, Value.str "d1", false⟩
    ∧ Value.str "d1" ≠ Value.nilv
    ∧ (pairBehavior.ProcessEvent (fun _ d => (d, true)) 6
        ⟨10, none, Value.str "d1", false⟩ ⟨"t", ⟨[]⟩⟩).1.hitData
      = Value.str "d1" := by decide

/-- Claim C3 as amended: a fresh pair behavior hands `nil` prior hit
data to the criterion, but resolving a pending hit clears only the hit
timestamp; `hitData` keeps its last stored value, so after a resolution
the criterion receives the previously stored hit data rather than
`nil`. -/
theorem C3_hitdata_retained :
    ∀ (d0 : Int) (criterion : PairCriterion) (now h : Int)
        (b : pairBehavior) (event : Event) (dv : Value),
      (NewPairBehavior d0).hitData = Value.nilv
      ∧ (event.Topic ≠ EventPairTimeoutTopic → b.hit = some h →
          criterion event b.hitData = (dv, true) →
          (pairBehavior.ProcessEvent criterion now b event).1.hit = none
          ∧ (pairBehavior.ProcessEvent criterion now b event).1.hitData
              = b.hitData) := by
  intro d0 criterion now h b event dv
  refine ⟨rfl, ?_⟩
  intro htopic hhit hmatch
  by_cases hlt : now - h > b.duration <;>
    simp [pairBehavior.ProcessEvent, htopic, hhit, hmatch, hlt,
      pairBehavior.emitTimeout, pairBehavior.emitPair]

/-- Witness for C3: the concrete pair resolution leaves `hit` cleared
and `hitData` still `"d1"`. -/
theorem C3_witness :
    (NewPairBehavior 10).hitData = Value.nilv
    ∧ (pairBehavior.ProcessEvent (fun _ _ => (Value.str "d2", true)) 5
        ⟨10, some 0, Value.str "d1", true⟩ ⟨"t", ⟨[]⟩⟩).1.hit = none
    ∧ (pairBehavior.ProcessEvent (fun _ _ => (Value.str "d2", true)) 5
        ⟨10, some 0, Value.str "d1", true⟩ ⟨"t", ⟨[]⟩⟩).1.hitData
      = Value.str "d1" :=
  ⟨(C3_hitdata_retained 10 (fun _ _ => (Value.str "d2", true)) 5 0
      ⟨10, some 0, Value.str "d1", true⟩ ⟨"t", ⟨[]⟩⟩ (Value.str "d2")).1,
   ((C3_hitdata_retained 10 (fun _ _ => (Value.str "d2", true)) 5 0
      ⟨10, some 0, Value.str "d1", true⟩ ⟨"t", ⟨[]⟩⟩ (Value.str "d2")).2
      (by decide) rfl rfl).1,
   ((C3_hitdata_retained 10 (fun _ _ => (Value.str "d2", true)) 5 0
      ⟨10, some 0, Value.str "d1", true⟩ ⟨"t", ⟨[]⟩⟩ (Value.str "d2")).2
      (by decide) rfl rfl).2⟩

/-- Claim C4: a second criterion-matching event while a hit is pending
stops the timer; if the elapsed time since the first hit exceeds the
duration, the timeout event (first timestamp, first data, timeout
timestamp) is emitted, otherwise the pair event (first timestamp, first
data, second timestamp, second data); in both cases `hit` is cleared
and the timer dropped, returning the behavior to idle. -/
theorem C4_second_hit :
    ∀ (criterion : PairCriterion) (now h : Int) (b : pairBehavior)
        (event : Event) (dv : Value),
      event.Topic ≠ EventPairTimeoutTopic →
      b.hit = some h →
      criterion event b.hitData = (dv, true) →
      pairBehavior.ProcessEvent criterion now b event =
        (if now - h > b.duration then
          ({ b with hit := none, timeout := false },
           [⟨EventPairTimeoutTopic,
             [(EventPairFirstTimePayload, Value.time h),
              (EventPairFirstDataPayload, b.hitData),
              (EventPairTimeoutPayload, Value.time now)]⟩])
        else
          ({ b with hit := none, timeout := false },
           [⟨EventPairTopic,
             [(EventPairFirstTimePayload, Value.time h),
              (EventPairFirstDataPayload, b.hitData),
              (EventPairSecondTimePayload, Value.time now),
              (EventPairSecondDataPayload, dv)]⟩])) := by
  intro criterion now h b event dv htopic hhit hmatch
  by_cases hlt : now - h > b.duration <;>
    simp [pairBehavior.ProcessEvent, htopic, hhit, hmatch, hlt,
      pairBehavior.emitTimeout, pairBehavior.emitPair]

/-- Witness for C4 at a concrete in-time second hit (5 - 0 ≤ 10): the
pair event is emitted and the behavior is idle again. -/
theorem C4_witness :
    Event.Topic ⟨"t", ⟨[]⟩⟩ ≠ EventPairTimeoutTopic
    ∧ pairBehavior.ProcessEvent (fun _ _ => (Value.str "d2", true)) 5
        ⟨10, some 0, Value.str "d1", true⟩ ⟨"t", ⟨[]⟩⟩ =
        (if (5 : Int) - 0 > 10 then
          (⟨10, none, Value.str "d1", false⟩,
           [⟨EventPairTimeoutTopic,
             [(EventPairFirstTimePayload, Value.time 0),
              (EventPairFirstDataPayload, Value.str "d1"),
              (EventPairTimeoutPayload, Value.time 5)]⟩])
        else
          (⟨10, none, Value.str "d1", false⟩,
           [⟨EventPairTopic,
             [(EventPairFirstTimePayload, Value.time 0),
              (EventPairFirstDataPayload, Value.str "d1"),
              (EventPairSecondTimePayload, Value.time 5),
              (EventPairSecondDataPayload, Value.str "d2")]⟩])) :=
  ⟨by decide,
   C4_second_hit (fun _ _ => (Value.str "d2", true)) 5 0
     ⟨10, some 0, Value.str "d1", true⟩ ⟨"t", ⟨[]⟩⟩ (Value.str "d2")
     (by decide) rfl rfl⟩

/-- Claim C9: a timeout-check event whose embedded first-hit timestamp
does not equal the stored hit — or which arrives with no hit pending —
emits nothing and leaves the whole behavior state (hit, hit data,
timer) unchanged. -/
theorem C9_stale_reminder_noop :
    ∀ (criterion : PairCriterion) (now : Int) (b : pairBehavior)
        (event : Event),
      event.Topic = EventPairTimeoutTopic →
      (b.hit = none
        ∨ ∃ h, b.hit = some h
            ∧ event.Payload.GetTime EventPairFirstTimePayload ≠ (h, true)) →
      pairBehavior.ProcessEvent criterion now b event = (b, []) := by
  intro criterion now b event htopic hstale
  rcases hstale with hnone | ⟨h, hh, hne⟩
  · cases htimer : b.timeout <;>
      simp [pairBehavior.ProcessEvent, htopic, hnone, htimer]
  · cases htimer : b.timeout
    · simp [pairBehavior.ProcessEvent, htopic, hh, htimer]
    · rcases hget : event.Payload.GetTime EventPairFirstTimePayload
        with ⟨t, ok⟩
      cases ok
      · simp [pairBehavior.ProcessEvent, htopic, hh, htimer, hget]
      · have hne2 : ¬t = h := fun hc => hne (by rw [hget, hc])
        simp [pairBehavior.ProcessEvent, htopic, hh, htimer, hget, hne2]

/-- Witness for C9: a reminder carrying timestamp 99 while the pending
hit is 0 is discarded with no state change and no emission. -/
theorem C9_witness :
    pairBehavior.ProcessEvent (fun _ _ => (Value.nilv, false)) 7
        ⟨10, some 0, Value.nilv, true⟩
        ⟨EventPairTimeoutTopic, ⟨[(EventPairFirstTimePayload, Value.time 99)]⟩⟩
      = (⟨10, some 0, Value.nilv, true⟩, []) :=
  C9_stale_reminder_noop (fun _ _ => (Value.nilv, false)) 7
    ⟨10, some 0, Value.nilv, true⟩
    ⟨EventPairTimeoutTopic, ⟨[(EventPairFirstTimePayload, Value.time 99)]⟩⟩
    rfl (Or.inr ⟨0, rfl, by decide⟩)
